import Mathlib

/-!
Shallow embedding of the httpeeve retrying HTTP client (httpeeve.go).

The retry engine `NewBackoffClient` wraps an HTTP transport, a backoff
scheduler (cenkalti/backoff, an external collaborator) and a caller-supplied
`Conditioner`.  We embed the closure it returns as a function over

  - a trace of transport outcomes (what `httpClient.Do` produces on the
    successive invocations), and
  - the scheduler state, abstracted as the number of delays it will still
    grant before signalling exhaustion (`backoff.Stop`), per the documented
    contract of `backoff.Retry`: run the operation; a nil result stops the
    loop; a `backoff.Permanent` error is unwrapped and returned without
    consulting the scheduler; any other error consults `NextBackOff`, which
    either grants a delay (loop again) or signals `Stop` (return the error).

Go runtime panics from nil pointer dereference are modelled explicitly by a
`nilDeref` result constructor, since `addAttemptsToRequest` and `Attempts`
read `resp.Request` on a possibly nil `*http.Response`.
-/

namespace Httpeeve

/-- Decides whether the list `sub` occurs at the head of `s` (character lists). -/
def leadsList (sub s : List Char) : Bool :=
  match sub, s with
  | [], _ => true
  | _ :: _, [] => false
  | a :: as, b :: bs => a == b && leadsList as bs

/-- Decides whether `sub` occurs contiguously somewhere in `s` (character lists). -/
def occursList (sub s : List Char) : Bool :=
  leadsList sub s ||
    match s with
    | [] => false
    | _ :: t => occursList sub t

/-- Embedding of Go `strings.Contains s sub`: `sub` occurs as a substring of `s`. -/
def strContains (s sub : String) : Bool :=
  occursList sub.toList s.toList

/-- Embedding of a Go `error` value as the transport produces it: its message
(`Error()` string) together with the structured information the code inspects,
namely whether the dynamic type implements `net.Error` and, if so, the results
of its `Timeout()` and `Temporary()` methods. -/
structure GoError where
  msg : String
  isNetErr : Bool
  timeoutFlag : Bool
  temporaryFlag : Bool
deriving DecidableEq

/-- Result of `categorizeRequestError`: the error is either returned as-is
(retriable, `backoff.Retry` will consult the scheduler) or wrapped in
`backoff.Permanent` (the retry loop stops at once and unwraps it). -/
inductive Categorized where
  | retriable (e : GoError)
  | permanent (e : GoError)
deriving DecidableEq

/-- Embedding of `categorizeRequestError` (httpeeve.go lines 65-81): an error
whose message contains "EOF" is retriable; otherwise a `net.Error` is
retriable exactly when its `Timeout()` or `Temporary()` flag is set; every
other error is permanent. -/
def categorizeRequestError (reqErr : GoError) : Categorized :=
  if strContains reqErr.msg "EOF" then
    .retriable reqErr
  else if reqErr.isNetErr then
    if reqErr.timeoutFlag || reqErr.temporaryFlag then
      .retriable reqErr
    else
      .permanent reqErr
  else
    .permanent reqErr

/-- Embedding of the request context: the only key the library ever stores is
`contextKeyAttempts`; `attemptsKey` is the value found under it, if any. -/
structure GoContext where
  attemptsKey : Option Nat
deriving DecidableEq

/-- Embedding of `*http.Request`: only its context is inspected by this library. -/
structure Request where
  ctx : GoContext
deriving DecidableEq

/-- Embedding of `*http.Response`: the status code (inspected by conditioners)
and the associated request (carrier of the attempts context value). -/
structure Response where
  statusCode : Int
  request : Request
deriving DecidableEq

/-- A `Conditioner` maps a response to `(shouldRetry, err)` as in httpeeve.go. -/
abbrev Conditioner := Response → Bool × Option GoError

/-- Result of running a Go function that can hit a nil pointer dereference:
either a value, or the runtime panic raised by dereferencing nil. -/
inductive GoResult (α : Type) where
  | ok (val : α)
  | nilDeref
deriving DecidableEq

/-- The response `r` with the attempt count `n` stored in its request context,
as `addAttemptsToRequest` leaves it via `context.WithValue`. -/
def withAttemptCount (r : Response) (n : Nat) : Response :=
  { r with request := { ctx := { attemptsKey := some n } } }

/-- Embedding of `addAttemptsToRequest` (httpeeve.go lines 130-132): it reads
`resp.Request`, so a nil response raises a nil pointer dereference; otherwise
it stores the count in the request context. -/
def addAttemptsToRequest : Option Response → Nat → GoResult Response
  | none, _ => .nilDeref
  | some r, attempts => .ok (withAttemptCount r attempts)

/-- Embedding of `Attempts` (httpeeve.go lines 125-128): it reads
`resp.Request`, so a nil response raises a nil pointer dereference; otherwise
the type assertion `.(int)` on the context value yields the stored count, or
the zero value 0 when the key is absent. -/
def Attempts : Option Response → GoResult Nat
  | none => .nilDeref
  | some r => .ok (r.request.ctx.attemptsKey.getD 0)

/-- One outcome of invoking the transport (`httpClient.Do`): either an error
with a nil response, or a response with a nil error. -/
inductive Outcome where
  | failure (e : GoError)
  | success (r : Response)
deriving DecidableEq

/-- Result of the `backoff.Retry` loop inside `NewBackoffClient`: `done` holds
the final values of the closed-over `resp` and the returned error, the final
attempt counter, the number of scheduler consultations (`NextBackOff` calls)
made, and the transport outcomes never consumed; `truncated` is a modelling
artifact, reached only when the outcome trace is shorter than the number of
invocations the loop performs. -/
inductive LoopResult where
  | done (resp : Option Response) (err : Option GoError) (attempts : Nat)
      (consults : Nat) (remaining : List Outcome)
  | truncated (attempts : Nat) (consults : Nat)
deriving DecidableEq

/-- Embedding of the `backoff.Retry` loop of `NewBackoffClient` (httpeeve.go
lines 39-58).  Each iteration increments `attempts`, consumes the next
transport outcome, and follows the source: a transport error goes through
`categorizeRequestError` (permanent stops at once; retriable consults the
scheduler); a response goes through the conditioner (`reqErr == nil` stops
with success; `shouldRetry` consults the scheduler; otherwise
`backoff.Permanent(reqErr)` stops at once).  `budget` is the number of delays
the scheduler still grants: a consultation with budget 0 returns `Stop`. -/
def backoffRetry (cond : Conditioner) :
    List Outcome → Nat → Nat → Nat → LoopResult
  | [], _, attempts, consults => .truncated attempts consults
  | o :: rest, budget, attempts, consults =>
    match o with
    | .failure reqErr =>
      match categorizeRequestError reqErr with
      | .permanent e => .done none (some e) (attempts + 1) consults rest
      | .retriable e =>
        match budget with
        | 0 => .done none (some e) (attempts + 1) (consults + 1) rest
        | b + 1 => backoffRetry cond rest b (attempts + 1) (consults + 1)
    | .success r =>
      match (cond r).2 with
      | none => .done (some r) none (attempts + 1) consults rest
      | some e =>
        if (cond r).1 then
          match budget with
          | 0 => .done (some r) (some e) (attempts + 1) (consults + 1) rest
          | b + 1 => backoffRetry cond rest b (attempts + 1) (consults + 1)
        else
          .done (some r) (some e) (attempts + 1) consults rest

/-- Result of one call through the client returned by `NewBackoffClient`:
a normal return of `(resp, err)`, a nil pointer dereference panic, or the
modelling artifact of a too-short outcome trace. -/
inductive DoResult where
  | returned (resp : Option Response) (err : Option GoError)
  | nilDeref
  | truncatedTrace
deriving DecidableEq

/-- Embedding of the closure returned by `NewBackoffClient` (httpeeve.go lines
36-62): run the retry loop with the attempt counter starting at 0, then pass
the closed-over `resp` (nil when the last transport invocation failed) through
`addAttemptsToRequest`, and return `(resp, err)`. -/
def NewBackoffClientDo (cond : Conditioner) (outcomes : List Outcome)
    (budget : Nat) : DoResult :=
  match backoffRetry cond outcomes budget 0 0 with
  | .truncated _ _ => .truncatedTrace
  | .done resp err attempts _ _ =>
    match addAttemptsToRequest resp attempts with
    | .nilDeref => .nilDeref
    | .ok r => .returned (some r) err

/-- Embedding of `errors.New` / `fmt.Errorf`: a plain error value that does
not implement `net.Error`. -/
def errorf (msg : String) : GoError :=
  { msg := msg, isNetErr := false, timeoutFlag := false, temporaryFlag := false }

/-- Embedding of the `OK` helper (httpeeve.go lines 84-86). -/
def OK : Bool × Option GoError := (false, none)

/-- Embedding of the `RetriableErrorf` helper (httpeeve.go lines 94-96). -/
def RetriableErrorf (msg : String) : Bool × Option GoError :=
  (true, some (errorf msg))

/-- Embedding of the `PermanentErrorf` helper (httpeeve.go lines 104-106). -/
def PermanentErrorf (msg : String) : Bool × Option GoError :=
  (false, some (errorf msg))

/-- Embedding of the conditioner installed by `NewDefaultBackoffClient5XX`
(httpeeve.go lines 110-122): retry on 5xx, accept 2xx, permanent otherwise. -/
def default5XXConditioner : Conditioner := fun resp =>
  if 500 ≤ resp.statusCode ∧ resp.statusCode < 600 then
    RetriableErrorf ("bad status code " ++ toString resp.statusCode)
  else if 200 ≤ resp.statusCode ∧ resp.statusCode < 300 then
    OK
  else
    PermanentErrorf ("bad status code " ++ toString resp.statusCode)

/-- Under conditioner `cond`, outcome `o` makes the retry loop ask the
scheduler for another attempt: a transport error categorized retriable, or a
response on which the conditioner returns `shouldRetry = true` with a non-nil
error. -/
def continuesRetrying (cond : Conditioner) : Outcome → Bool
  | .failure e =>
    match categorizeRequestError e with
    | .retriable _ => true
    | .permanent _ => false
  | .success r =>
    match (cond r).2 with
    | some _ => (cond r).1
    | none => false

/-- A 200-status response with a fresh request context. -/
def r200 : Response := { statusCode := 200, request := { ctx := { attemptsKey := none } } }

/-- A 404-status response with a fresh request context. -/
def r404 : Response := { statusCode := 404, request := { ctx := { attemptsKey := none } } }

/-- A 500-status response with a fresh request context. -/
def r500 : Response := { statusCode := 500, request := { ctx := { attemptsKey := none } } }

/-- The diagnostic the default conditioner produces for status 500. -/
def e500 : GoError := errorf ("bad status code " ++ toString (500 : Int))

/-- The diagnostic the default conditioner produces for status 404. -/
def e404 : GoError := errorf ("bad status code " ++ toString (404 : Int))

/-- A transport error whose message contains "EOF" (categorized retriable). -/
def eofTransportErr : GoError :=
  { msg := "read tcp 127.0.0.1:443: unexpected EOF", isNetErr := false,
    timeoutFlag := false, temporaryFlag := false }

/-- A DNS-style `net.Error` with neither flag set (categorized permanent). -/
def dnsTransportErr : GoError :=
  { msg := "dial tcp: lookup nope.invalid: no such host", isNetErr := true,
    timeoutFlag := false, temporaryFlag := false }

/-- One step of the retry loop on an outcome that keeps retrying consumes one
outcome, one unit of budget, and increments the attempt counter and the
consultation counter. -/
theorem backoffRetry_step (cond : Conditioner) (o : Outcome) (rest : List Outcome)
    (b a c : Nat) (ho : continuesRetrying cond o = true) :
    backoffRetry cond (o :: rest) (b + 1) a c =
      backoffRetry cond rest b (a + 1) (c + 1) := by
  cases o with
  | failure e =>
    simp only [continuesRetrying] at ho
    cases hcat : categorizeRequestError e with
    | permanent e2 => rw [hcat] at ho; simp at ho
    | retriable e2 => simp [backoffRetry, hcat]
  | success r =>
    simp only [continuesRetrying] at ho
    cases hc : (cond r).2 with
    | none => rw [hc] at ho; simp at ho
    | some e => rw [hc] at ho; simp only [] at ho; simp [backoffRetry, hc, ho]

/-- Running the retry loop on a trace whose first `pre.length` outcomes all
keep retrying consumes exactly those outcomes, provided the scheduler budget
covers them. -/
theorem backoffRetry_consume (cond : Conditioner) (pre : List Outcome)
    (hpre : ∀ o ∈ pre, continuesRetrying cond o = true) :
    ∀ (rest : List Outcome) (budget a c : Nat), pre.length ≤ budget →
      backoffRetry cond (pre ++ rest) budget a c =
        backoffRetry cond rest (budget - pre.length) (a + pre.length)
          (c + pre.length) := by
  induction pre with
  | nil => intro rest budget a c _; simp
  | cons o pre ih =>
    intro rest budget a c hb
    simp only [List.length_cons] at hb ⊢
    obtain ⟨b, rfl⟩ : ∃ b, budget = b + 1 := ⟨budget - 1, by omega⟩
    rw [List.cons_append,
      backoffRetry_step cond o (pre ++ rest) b a c (hpre o (by simp)),
      show b + 1 - (pre.length + 1) = b - pre.length from by omega,
      show a + (pre.length + 1) = a + 1 + pre.length from by omega,
      show c + (pre.length + 1) = c + 1 + pre.length from by omega]
    exact ih (fun o2 ho2 => hpre o2 (List.mem_cons_of_mem _ ho2)) rest b
      (a + 1) (c + 1) (by omega)

/-- Claim C1: when the trace of transport outcomes ends with a response the
conditioner accepts (nil error), each earlier outcome keeps retrying, and the
scheduler budget covers the delays, the call returns that final response with
a nil error; the attempt count attached to the response is `pre.length + 1`,
which equals the number of transport invocations actually made (the loop
leaves exactly the unconsumed suffix `rest`). -/
theorem accept_run_returns_response (cond : Conditioner) (pre rest : List Outcome)
    (r : Response) (budget : Nat)
    (hpre : ∀ o ∈ pre, continuesRetrying cond o = true)
    (hb : pre.length ≤ budget)
    (hacc : (cond r).2 = none) :
    backoffRetry cond (pre ++ Outcome.success r :: rest) budget 0 0 =
      .done (some r) none (pre.length + 1) pre.length rest ∧
    NewBackoffClientDo cond (pre ++ Outcome.success r :: rest) budget =
      .returned (some (withAttemptCount r (pre.length + 1))) none ∧
    Attempts (some (withAttemptCount r (pre.length + 1))) =
      .ok (pre.length + 1) := by
  have hloop : backoffRetry cond (pre ++ Outcome.success r :: rest) budget 0 0 =
      .done (some r) none (pre.length + 1) pre.length rest := by
    rw [backoffRetry_consume cond pre hpre (Outcome.success r :: rest) budget 0 0 hb]
    simp [backoffRetry, hacc]
  refine ⟨hloop, ?_, rfl⟩
  unfold NewBackoffClientDo
  rw [hloop]
  rfl

/-- Claim C2: when the conditioner asks to retry on every attempt and the
scheduler grants exactly `rs.length` delays before signalling exhaustion, the
call makes `rs.length + 1` transport invocations (the suffix `rest` is never
consumed), the attempt count attached is `rs.length + 1`, the returned error
is the diagnostic of the last classification, and the last response is
returned alongside it. -/
theorem retry_exhaustion_returns_last_diagnostic (cond : Conditioner)
    (rs : List Response) (r : Response) (e : GoError) (rest : List Outcome)
    (hrs : ∀ s ∈ rs, (cond s).1 = true ∧ (cond s).2.isSome = true)
    (hr : cond r = (true, some e)) :
    backoffRetry cond (rs.map Outcome.success ++ Outcome.success r :: rest)
        rs.length 0 0 =
      .done (some r) (some e) (rs.length + 1) (rs.length + 1) rest ∧
    NewBackoffClientDo cond (rs.map Outcome.success ++ Outcome.success r :: rest)
        rs.length =
      .returned (some (withAttemptCount r (rs.length + 1))) (some e) ∧
    Attempts (some (withAttemptCount r (rs.length + 1))) =
      .ok (rs.length + 1) := by
  have hpre : ∀ o ∈ rs.map Outcome.success, continuesRetrying cond o = true := by
    intro o ho
    obtain ⟨s, hs, rfl⟩ := List.mem_map.mp ho
    obtain ⟨h1, h2⟩ := hrs s hs
    obtain ⟨d, hd⟩ := Option.isSome_iff_exists.mp h2
    simp [continuesRetrying, hd, h1]
  have hloop : backoffRetry cond
      (rs.map Outcome.success ++ Outcome.success r :: rest) rs.length 0 0 =
      .done (some r) (some e) (rs.length + 1) (rs.length + 1) rest := by
    rw [backoffRetry_consume cond (rs.map Outcome.success) hpre
      (Outcome.success r :: rest) rs.length 0 0 (by simp)]
    simp [backoffRetry, hr]
  refine ⟨hloop, ?_, rfl⟩
  unfold NewBackoffClientDo
  rw [hloop]
  rfl

/-- Claim C3: when the conditioner returns `shouldRetry = false` with a
non-nil error on the first response, the call stops after that single
invocation: attempt count 1, zero scheduler consultations, the whole suffix
`rest` left unconsumed, the diagnostic returned as the error, and the
response returned alongside it. -/
theorem permanent_response_stops_immediately (cond : Conditioner) (r : Response)
    (e : GoError) (rest : List Outcome) (budget : Nat)
    (hr : cond r = (false, some e)) :
    backoffRetry cond (Outcome.success r :: rest) budget 0 0 =
      .done (some r) (some e) 1 0 rest ∧
    NewBackoffClientDo cond (Outcome.success r :: rest) budget =
      .returned (some (withAttemptCount r 1)) (some e) ∧
    Attempts (some (withAttemptCount r 1)) = .ok 1 := by
  have hloop : backoffRetry cond (Outcome.success r :: rest) budget 0 0 =
      .done (some r) (some e) 1 0 rest := by
    simp [backoffRetry, hr]
  refine ⟨hloop, ?_, rfl⟩
  unfold NewBackoffClientDo
  rw [hloop]
  rfl

/-- Claim C4: `categorizeRequestError` decides retriable exactly when the
message contains "EOF", or the error is a `net.Error` with the timeout or the
temporary flag set; in every other case it decides permanent.  Either way the
error value carried is the input itself, and the decision is a pure function
of the error. -/
theorem categorizeRequestError_spec (e : GoError) :
    (categorizeRequestError e = .retriable e ↔
      (strContains e.msg "EOF" = true ∨
        (e.isNetErr = true ∧ (e.timeoutFlag = true ∨ e.temporaryFlag = true)))) ∧
    (categorizeRequestError e = .permanent e ↔
      ¬(strContains e.msg "EOF" = true ∨
        (e.isNetErr = true ∧ (e.timeoutFlag = true ∨ e.temporaryFlag = true)))) := by
  unfold categorizeRequestError
  by_cases h1 : strContains e.msg "EOF" = true
  · simp [h1]
  · by_cases h2 : e.isNetErr = true
    · by_cases h3 : e.timeoutFlag = true ∨ e.temporaryFlag = true
      · have hb : (e.timeoutFlag || e.temporaryFlag) = true := by
          rcases h3 with h | h <;> simp [h]
        simp [h1, h2, hb, h3]
      · have hb : (e.timeoutFlag || e.temporaryFlag) = false := by
          push_neg at h3
          simp [h3.1, h3.2]
        simp [h1, h2, hb, h3]
    · simp [h1, h2]

/-- Claim C8: the conditioner installed by `NewDefaultBackoffClient5XX`
returns Retry (shouldRetry true, non-nil diagnostic) exactly on status codes
in [500, 600), Accept (false, nil) exactly on [200, 300), and Permanent
(false, non-nil diagnostic) on every other status code. -/
theorem default5XXConditioner_spec (r : Response) :
    (((default5XXConditioner r).1 = true ∧ (default5XXConditioner r).2 ≠ none) ↔
      (500 ≤ r.statusCode ∧ r.statusCode < 600)) ∧
    ((default5XXConditioner r = (false, none)) ↔
      (200 ≤ r.statusCode ∧ r.statusCode < 300)) ∧
    (((default5XXConditioner r).1 = false ∧ (default5XXConditioner r).2 ≠ none) ↔
      (¬(500 ≤ r.statusCode ∧ r.statusCode < 600) ∧
        ¬(200 ≤ r.statusCode ∧ r.statusCode < 300))) := by
  unfold default5XXConditioner
  by_cases h5 : 500 ≤ r.statusCode ∧ r.statusCode < 600
  · have h2 : ¬(200 ≤ r.statusCode ∧ r.statusCode < 300) := by omega
    simp [h5, h2, RetriableErrorf]
  · by_cases h2 : 200 ≤ r.statusCode ∧ r.statusCode < 300
    · simp [h5, h2, OK]
    · simp [h5, h2, PermanentErrorf]

/-- Whenever the retry loop reaches a terminal result, the final attempt
counter exceeds the initial one by exactly the number of outcomes consumed,
and at least one outcome is consumed. -/
theorem backoffRetry_done_counts (cond : Conditioner) (outcomes : List Outcome) :
    ∀ (budget a0 c0 : Nat) (resp : Option Response) (err : Option GoError)
      (a c : Nat) (rem : List Outcome),
      backoffRetry cond outcomes budget a0 c0 = .done resp err a c rem →
      a0 + 1 ≤ a ∧ a + rem.length = a0 + outcomes.length := by
  induction outcomes with
  | nil =>
    intro budget a0 c0 resp err a c rem h
    simp [backoffRetry] at h
  | cons o rest ih =>
    intro budget a0 c0 resp err a c rem h
    cases o with
    | failure e2 =>
      simp only [backoffRetry] at h
      cases hcat : categorizeRequestError e2 with
      | permanent e3 =>
        rw [hcat] at h
        simp only [LoopResult.done.injEq] at h
        obtain ⟨-, -, ha, -, hrem⟩ := h
        subst ha; subst hrem
        simp only [List.length_cons]
        omega
      | retriable e3 =>
        rw [hcat] at h
        cases budget with
        | zero =>
          simp only [LoopResult.done.injEq] at h
          obtain ⟨-, -, ha, -, hrem⟩ := h
          subst ha; subst hrem
          simp only [List.length_cons]
          omega
        | succ b =>
          have := ih b (a0 + 1) (c0 + 1) resp err a c rem h
          simp only [List.length_cons]
          omega
    | success r =>
      simp only [backoffRetry] at h
      cases hc : (cond r).2 with
      | none =>
        rw [hc] at h
        simp only [LoopResult.done.injEq] at h
        obtain ⟨-, -, ha, -, hrem⟩ := h
        subst ha; subst hrem
        simp only [List.length_cons]
        omega
      | some e2 =>
        rw [hc] at h
        simp only [] at h
        by_cases hsr : (cond r).1 = true
        · rw [if_pos hsr] at h
          cases budget with
          | zero =>
            simp only [LoopResult.done.injEq] at h
            obtain ⟨-, -, ha, -, hrem⟩ := h
            subst ha; subst hrem
            simp only [List.length_cons]
            omega
          | succ b =>
            have := ih b (a0 + 1) (c0 + 1) resp err a c rem h
            simp only [List.length_cons]
            omega
        · rw [if_neg hsr] at h
          simp only [LoopResult.done.injEq] at h
          obtain ⟨-, -, ha, -, hrem⟩ := h
          subst ha; subst hrem
          simp only [List.length_cons]
          omega

/-- Claim C9: starting from 0, the attempt counter at any terminal outcome of
the retry loop equals the number of transport invocations actually made (the
outcomes consumed from the trace, one increment per invocation) and is at
least 1. -/
theorem attempt_counter_counts_invocations (cond : Conditioner)
    (outcomes : List Outcome) (budget : Nat) (resp : Option Response)
    (err : Option GoError) (a c : Nat) (rem : List Outcome)
    (h : backoffRetry cond outcomes budget 0 0 = .done resp err a c rem) :
    1 ≤ a ∧ a + rem.length = outcomes.length := by
  have := backoffRetry_done_counts cond outcomes budget 0 0 resp err a c rem h
  omega

/-- Claim C5 (code bug): when every transport invocation fails and the
scheduler signals exhaustion, the retry loop does end with a nil response and
the last transport error, but the wrapper then dereferences the nil response
in `addAttemptsToRequest`, so the call panics instead of returning
`(nil, err)`. -/
theorem transport_only_failures_nil_deref :
    backoffRetry default5XXConditioner [Outcome.failure eofTransportErr] 0 0 0 =
      .done none (some eofTransportErr) 1 1 [] ∧
    NewBackoffClientDo default5XXConditioner [Outcome.failure eofTransportErr] 0 =
      .nilDeref := by
  constructor
  · decide
  · decide

/-- Claim C6 (code bug): `Attempts` on a nil response dereferences
`resp.Request` and panics instead of returning 0. -/
theorem attempts_nil_response_nil_deref :
    Attempts none = GoResult.nilDeref := rfl

/-- Claim C7 (code bug): on a transport error categorized permanent, the
retry loop does stop after the single invocation with zero scheduler
consultations and the second outcome unconsumed, but the wrapper then
dereferences the nil response in `addAttemptsToRequest`, so the transport
error never reaches the caller: the call panics. -/
theorem permanent_transport_error_nil_deref :
    backoffRetry default5XXConditioner
        [Outcome.failure dnsTransportErr, Outcome.failure dnsTransportErr] 5 0 0 =
      .done none (some dnsTransportErr) 1 0 [Outcome.failure dnsTransportErr] ∧
    NewBackoffClientDo default5XXConditioner
        [Outcome.failure dnsTransportErr, Outcome.failure dnsTransportErr] 5 =
      .nilDeref := by
  constructor
  · decide
  · decide

/-- Claim C10: on a non-nil response whose request context does not carry the
attempts key, `Attempts` returns 0 (the zero value of the failed type
assertion) rather than failing. -/
theorem attempts_missing_key_zero (r : Response)
    (h : r.request.ctx.attemptsKey = none) :
    Attempts (some r) = .ok 0 := by
  simp [Attempts, h]

/-- Witness for C1 at the spec scenario: a 500 then a 200 under the default
conditioner with one delay granted gives the 200 response, nil error and
attempt count 2. -/
theorem accept_run_returns_response_w :
    backoffRetry default5XXConditioner
        ([Outcome.success r500] ++ Outcome.success r200 :: []) 1 0 0 =
      LoopResult.done (some r200) none 2 1 [] ∧
    NewBackoffClientDo default5XXConditioner
        ([Outcome.success r500] ++ Outcome.success r200 :: []) 1 =
      DoResult.returned (some (withAttemptCount r200 2)) none ∧
    Attempts (some (withAttemptCount r200 2)) = GoResult.ok 2 :=
  accept_run_returns_response default5XXConditioner [Outcome.success r500] []
    r200 1 (by decide) (by decide) (by decide)

/-- Witness for C2: two 500 responses under the default conditioner with one
delay granted exhaust the scheduler; the call makes 2 invocations and returns
the last diagnostic with the last response. -/
theorem retry_exhaustion_returns_last_diagnostic_w :
    backoffRetry default5XXConditioner
        ([r500].map Outcome.success ++ Outcome.success r500 :: []) 1 0 0 =
      LoopResult.done (some r500) (some e500) 2 2 [] ∧
    NewBackoffClientDo default5XXConditioner
        ([r500].map Outcome.success ++ Outcome.success r500 :: []) 1 =
      DoResult.returned (some (withAttemptCount r500 2)) (some e500) ∧
    Attempts (some (withAttemptCount r500 2)) = GoResult.ok 2 :=
  retry_exhaustion_returns_last_diagnostic default5XXConditioner [r500] r500
    e500 [] (by decide) (by decide)

/-- Witness for C3: a 404 under the default conditioner stops at once with
attempt count 1, zero consultations, and a further available outcome left
unconsumed. -/
theorem permanent_response_stops_immediately_w :
    backoffRetry default5XXConditioner
        (Outcome.success r404 :: [Outcome.success r200]) 7 0 0 =
      LoopResult.done (some r404) (some e404) 1 0 [Outcome.success r200] ∧
    NewBackoffClientDo default5XXConditioner
        (Outcome.success r404 :: [Outcome.success r200]) 7 =
      DoResult.returned (some (withAttemptCount r404 1)) (some e404) ∧
    Attempts (some (withAttemptCount r404 1)) = GoResult.ok 1 :=
  permanent_response_stops_immediately default5XXConditioner r404 e404
    [Outcome.success r200] 7 (by decide)

/-- Witness for C9: a single accepted 200 gives attempt count 1 with the
whole trace consumed. -/
theorem attempt_counter_counts_invocations_w :
    1 ≤ 1 ∧ 1 + ([] : List Outcome).length = [Outcome.success r200].length :=
  attempt_counter_counts_invocations default5XXConditioner
    [Outcome.success r200] 0 (some r200) none 1 0 [] (by decide)

/-- Witness for C10: a fresh 200 response carries no attempts key and
`Attempts` returns 0 on it. -/
theorem attempts_missing_key_zero_w :
    Attempts (some r200) = GoResult.ok 0 :=
  attempts_missing_key_zero r200 rfl

end Httpeeve
